import Mathlib

/-!
Shallow embedding of the SSC battery voltage core
(`shared/lib_battery_voltage.cpp`) and of the resilience outage-step driver
(`shared/lib_resilience.cpp`), together with theorems checking the
natural-language specification against the code.

Conventions: Lean `ℝ` stands for C++ `double`; fallible initialization code
(C++ `throw`) is embedded as `Except`; the voltage table, stored in the
source as a sorted vector of rows, is embedded as an index function with an
explicit row count; bounded `while` loops are embedded as fuel recursions
whose fuel provably dominates the loop's iteration count on the inputs the
theorems use.
-/

namespace SSCBattery

noncomputable section

open Real

/-- Modelled from the spec: the global numerical constant `tolerance` used by
the battery model is defined in a header outside the excerpt.  The spec's
clamp interval `[1e-3, 1-tolerance]` fixes the scale `1e-3`. -/
def tolerance : ℝ := 1e-3

/-- The `dynamic` sub-record of `voltage_params` (Tremblay model inputs),
mirroring `voltage_params::dynamic` used throughout
`lib_battery_voltage.cpp`. -/
structure dynamic_params where
  Vfull : ℝ
  Vexp : ℝ
  Vnom : ℝ
  Vcut : ℝ
  Qfull : ℝ
  Qexp : ℝ
  Qnom : ℝ
  C_rate : ℝ

/-- The shared parameter block `voltage_params` (topology, nominal voltage,
resistance, timestep, dynamic sub-record). -/
structure voltage_params where
  num_cells_series : ℕ
  num_strings : ℕ
  Vnom_default : ℝ
  resistance : ℝ
  dt_hr : ℝ
  dynamic : dynamic_params

/-- Configuration errors raised (as C++ `std::runtime_error`) by the dynamic
model's `initialize`/`parameter_compute`. -/
inductive VoltageError where
  | orderingViolation
  | negativeModelParams
  deriving DecidableEq

/-- The derived constants `_A, _B0, _K, _E0` of `voltage_dynamic_t`. -/
structure dyn_consts where
  A : ℝ
  B0 : ℝ
  K : ℝ
  E0 : ℝ

/-- `voltage_dynamic_t::parameter_compute` (lib_battery_voltage.cpp:366-383):
computes the Tremblay derived constants and throws when any is negative. -/
def parameter_compute (p : voltage_params) : Except VoltageError dyn_consts :=
  let I := p.dynamic.Qfull * p.dynamic.C_rate
  let A := p.dynamic.Vfull - p.dynamic.Vexp
  let B0 := 3 / p.dynamic.Qexp
  let K := ((p.dynamic.Vfull - p.dynamic.Vnom + A * (Real.exp (-B0 * p.dynamic.Qnom) - 1)) *
      (p.dynamic.Qfull - p.dynamic.Qnom)) / p.dynamic.Qnom
  let E0 := p.dynamic.Vfull + K + p.resistance * I - A
  if A < 0 ∨ B0 < 0 ∨ K < 0 ∨ E0 < 0 then Except.error VoltageError.negativeModelParams
  else Except.ok ⟨A, B0, K, E0⟩

/-- The spec's own formula `A = Vfull - Vexp`, written from the spec text for
comparison with `parameter_compute`. -/
def specA (p : voltage_params) : ℝ := p.dynamic.Vfull - p.dynamic.Vexp

/-- The spec's own formula `B0 = 3/Qexp`. -/
def specB0 (p : voltage_params) : ℝ := 3 / p.dynamic.Qexp

/-- The spec's own formula
`K = ((Vfull - Vnom + A·(e^(-B0·Qnom) - 1))·(Qfull - Qnom))/Qnom`. -/
def specK (p : voltage_params) : ℝ :=
  ((p.dynamic.Vfull - p.dynamic.Vnom + specA p * (Real.exp (-specB0 p * p.dynamic.Qnom) - 1)) *
      (p.dynamic.Qfull - p.dynamic.Qnom)) / p.dynamic.Qnom

/-- The spec's own formula `E0 = Vfull + K + R·(Qfull·C_rate) - A`. -/
def specE0 (p : voltage_params) : ℝ :=
  p.dynamic.Vfull + specK p + p.resistance * (p.dynamic.Qfull * p.dynamic.C_rate) - specA p

/-- `voltage_dynamic_t::initialize` (lib_battery_voltage.cpp:307-316):
validates the voltage ordering, sets `cell_voltage = Vfull`, and runs
`parameter_compute`.  Returns the derived constants together with the
initial `cell_voltage`. -/
def dyn_init (p : voltage_params) : Except VoltageError (dyn_consts × ℝ) :=
  if p.dynamic.Vfull < p.dynamic.Vexp ∨ p.dynamic.Vexp < p.dynamic.Vnom ∨
      p.dynamic.Vnom < p.dynamic.Vcut then
    Except.error VoltageError.orderingViolation
  else (parameter_compute p).map fun c => (c, p.dynamic.Vfull)

/-- `voltage_dynamic_t::calculate_Qfull_mod` (lib_battery_voltage.cpp:401-413):
cutoff-voltage-adjusted capacity. -/
def calculate_Qfull_mod (p : voltage_params) (c : dyn_consts) (qmax : ℝ) : ℝ :=
  if p.dynamic.Vcut ≠ 0 then
    let C := (-1 * p.dynamic.Vcut + c.E0 - p.resistance * qmax * p.dynamic.C_rate +
        c.A * Real.exp (-c.B0 * qmax)) / c.K
    qmax + qmax / (C - 1)
  else qmax

/-- `voltage_dynamic_t::voltage_model_tremblay_hybrid`
(lib_battery_voltage.cpp:390-399): per-cell Tremblay voltage. -/
def voltage_model_tremblay_hybrid (p : voltage_params) (c : dyn_consts)
    (Q_cell I q0_cell : ℝ) : ℝ :=
  let Q_cell_mod := calculate_Qfull_mod p c Q_cell
  let it := Q_cell - q0_cell
  let E := c.E0 - c.K * (Q_cell_mod / (Q_cell_mod - it)) + c.A * Real.exp (-c.B0 * it)
  E - p.resistance * I

/-- `voltage_dynamic_t::updateVoltage` (lib_battery_voltage.cpp:427-436):
converts to per-string quantities and floors the cell voltage at 0.
The current and temperature arguments mirror the source signature; the
temperature and timestep are ignored there. -/
def dyn_updateVoltage (p : voltage_params) (c : dyn_consts) (q qmax I : ℝ) : ℝ :=
  max (voltage_model_tremblay_hybrid p c (qmax / (p.num_strings : ℝ))
    (I / (p.num_strings : ℝ)) (q / (p.num_strings : ℝ))) 0

/-- `voltage_dynamic_t::calculate_max_charge_w` (lib_battery_voltage.cpp:438-449),
returned as a (power, current) pair. -/
def dyn_calculate_max_charge_w (p : voltage_params) (c : dyn_consts) (q qmax : ℝ) : ℝ × ℝ :=
  let q' := q / (p.num_strings : ℝ)
  let qmax' := qmax / (p.num_strings : ℝ)
  let current := (q' - qmax') / p.dt_hr
  (current * voltage_model_tremblay_hybrid p c qmax' current qmax' *
      (p.num_strings : ℝ) * (p.num_cells_series : ℝ),
    current * (p.num_strings : ℝ))

/-- The scan loop of `voltage_dynamic_t::calculate_max_discharge_w`
(lib_battery_voltage.cpp:463-472): brute-force current scan tracking the
(max power, its current, its voltage) triple.  The accumulator `acc` is
that triple; `fuel` dominates the loop's iteration count. -/
def dyn_max_discharge_loop (p : voltage_params) (c : dyn_consts) (q qmax : ℝ) :
    ℕ → ℝ → ℝ → ℝ × ℝ × ℝ → ℝ × ℝ × ℝ
  | 0, _, _, acc => acc
  | fuel + 1, current, vol, acc =>
    if current * p.dt_hr < q - tolerance ∧ p.dynamic.Vcut ≤ vol then
      let v := voltage_model_tremblay_hybrid p c qmax current (q - current * p.dt_hr)
      let pw := current * v
      dyn_max_discharge_loop p c q qmax fuel (current + q / 10) v
        (if acc.1 < pw ∧ p.dynamic.Vcut ≤ v then (pw, current, v) else acc)
    else acc

/-- `voltage_dynamic_t::calculate_max_discharge_w` (lib_battery_voltage.cpp:453-480).
The loop's iteration count is at most `10/dt_hr + 2` (the scanned current
starts at `q/2` and grows by `q/10` until it reaches `(q - tolerance)/dt_hr`),
which the fuel dominates. -/
def dyn_calculate_max_discharge_w (p : voltage_params) (c : dyn_consts) (q qmax : ℝ) : ℝ × ℝ :=
  let q' := q / (p.num_strings : ℝ)
  let qmax' := qmax / (p.num_strings : ℝ)
  let acc := dyn_max_discharge_loop p c q' qmax' (Nat.ceil (10 / p.dt_hr) + 2)
    (q' * 0.5) p.dynamic.Vcut (0, 0, 0)
  (acc.1 * (p.num_strings : ℝ) * (p.num_cells_series : ℝ), acc.2.1 * (p.num_strings : ℝ))

/-- Modelled from the spec: the generic root finder of `6par_newton.h` is
outside the excerpt.  Per the spec it is a damped Newton–Raphson iteration
with a numerically estimated (finite-difference) Jacobian, an iteration cap,
and a residual tolerance, returning the last iterate on non-convergence. -/
def newton1 (f : ℝ → ℝ) (h damp ftol : ℝ) : ℕ → ℝ → ℝ
  | 0, x => x
  | n + 1, x =>
    if |f x| < ftol then x
    else newton1 f h damp ftol n (x - damp * (f x / ((f (x + h) - f x) / h)))

/-- Modelled from the spec: the finite-difference step used by the root
finder's Jacobian estimate; its size is not given by the spec. -/
def newtonFdStep : ℝ := 1e-6

/-- `voltage_dynamic_t::solve_current_for_discharge_power`
(lib_battery_voltage.cpp:526-535): residual `I·V(I) - P` for discharging. -/
def solve_current_for_discharge_power (p : voltage_params) (c : dyn_consts)
    (Qmod Q q pw : ℝ) (I : ℝ) : ℝ :=
  I * (c.E0 - c.K * Qmod / (Qmod - (Q - (q - I * p.dt_hr))) +
    c.A * Real.exp (-c.B0 * (Q - (q - I * p.dt_hr))) - p.resistance * I) - pw

/-- `voltage_dynamic_t::solve_current_for_charge_power`
(lib_battery_voltage.cpp:519-524): residual `I·V(I) - P` for charging,
with the resistance sign flipped. -/
def solve_current_for_charge_power (p : voltage_params) (c : dyn_consts)
    (Qmod Q q pw : ℝ) (I : ℝ) : ℝ :=
  I * (c.E0 - c.K * Qmod / (Qmod - (Q - (q + I * p.dt_hr))) +
    c.A * Real.exp (-c.B0 * (Q - (q + I * p.dt_hr))) + p.resistance * I) - pw

/-- `voltage_dynamic_t::calculate_current_for_target_w`
(lib_battery_voltage.cpp:482-517): early return at `P = 0`, then hands the
power-balance residual to the root finder; `cell_voltage` is the state used
for the initial guess. -/
def dyn_calculate_current_for_target_w (p : voltage_params) (c : dyn_consts)
    (cell_voltage P q qmax : ℝ) : ℝ :=
  if P = 0 then 0
  else
    let spower := |P| / ((p.num_cells_series : ℝ) * (p.num_strings : ℝ))
    let sq := q / (p.num_strings : ℝ)
    let sQ := qmax / (p.num_strings : ℝ)
    let sQmod := if p.dynamic.Vcut ≠ 0 then calculate_Qfull_mod p c (qmax / (p.num_strings : ℝ))
      else sQ
    let x0 := if cell_voltage ≠ 0 then spower / cell_voltage * p.dt_hr
      else spower / p.dynamic.Vnom * p.dt_hr
    if 0 < P then
      newton1 (solve_current_for_discharge_power p c sQmod sQ sq spower)
        newtonFdStep 0.7 1e-6 100 x0 * (p.num_strings : ℝ)
    else
      newton1 (solve_current_for_charge_power p c sQmod sQ sq spower)
        newtonFdStep 0.7 1e-6 100 x0 * (p.num_strings : ℝ) * (-1)

/-! ### Table-interpolation variant -/

/-- The voltage table of `voltage_table_t` after `initialize` sorted it
descending by voltage.  The source stores it as a vector of
(depth-of-discharge, voltage) rows; it is embedded as the row count `n`
together with index functions `dod` and `vol` over row indices `< n`. -/
structure table_data where
  n : ℕ
  dod : ℕ → ℝ
  vol : ℕ → ℝ

/-- The row index that segment `i` of the slope/intercept arrays is computed
from.  Indices `0 ≤ i < n` are the rows themselves; index `n` is the
duplicate of the last segment appended by `initialize` for extrapolation
(lib_battery_voltage.cpp:142-144). -/
def effRow (t : table_data) (i : ℕ) : ℕ := min i (t.n - 1)

/-- Entry `i` of the `slopes` array built by `voltage_table_t::initialize`
(lib_battery_voltage.cpp:108-132): 0 for the first row, else the slope of
the line through rows `i-1` and `i`. -/
def slope (t : table_data) (i : ℕ) : ℝ :=
  if effRow t i = 0 then 0
  else (t.vol (effRow t i) - t.vol (effRow t i - 1)) /
    (t.dod (effRow t i) - t.dod (effRow t i - 1))

/-- Entry `i` of the `intercepts` array built by `voltage_table_t::initialize`:
the first row's voltage for the first row, else `V0 - slope·DOD0`. -/
def intercept (t : table_data) (i : ℕ) : ℝ :=
  if effRow t i = 0 then t.vol 0
  else t.vol (effRow t i - 1) - slope t i * t.dod (effRow t i - 1)

/-- The row-scan `while` loop shared by `calculate_voltage`
(lib_battery_voltage.cpp:188-191) and `calculate_current_for_target_w`
(lib_battery_voltage.cpp:263-266): advance while the query is greater than
the row's tabulated DOD.  `fuel = t.n` dominates the loop. -/
def scanAux (t : table_data) (x : ℝ) : ℕ → ℕ → ℕ
  | 0, i => i
  | fuel + 1, i => if i < t.n ∧ t.dod i < x then scanAux t x fuel (i + 1) else i

/-- The scan's result starting from row 0. -/
def scanIdx (t : table_data) (x : ℝ) : ℕ := scanAux t x t.n 0

/-- The interpolation line of segment `i`: `slope·DOD + intercept`. -/
def lineVal (t : table_data) (i : ℕ) (x : ℝ) : ℝ := slope t i * x + intercept t i

/-- `voltage_table_t::calculate_voltage` (lib_battery_voltage.cpp:184-194):
clamp the DOD to [0,100], scan for the segment, evaluate its line, floor
at 0. -/
def calculate_voltage (t : table_data) (DOD : ℝ) : ℝ :=
  let D := min (max 0 DOD) 100
  max (lineVal t (scanIdx t D) D) 0

/-- `voltage_table_t::updateVoltage` (lib_battery_voltage.cpp:206-209).  The
source signature also takes the current, the temperature and the timestep
and ignores all three. -/
def table_updateVoltage (t : table_data) (q qmax I temp dt : ℝ) : ℝ :=
  calculate_voltage t (100 * (1 - q / qmax))

/-- The helper `calc_DOD` (lib_battery_voltage.cpp:212). -/
def calc_DOD (q qmax : ℝ) : ℝ := (1 - q / qmax) * 100

/-- `voltage_table_t::calculate_max_charge_w` (lib_battery_voltage.cpp:214-219)
as a (power, current) pair. -/
def calculate_max_charge_w (p : voltage_params) (t : table_data) (q qmax : ℝ) : ℝ × ℝ :=
  (calculate_voltage t 0 * ((q - qmax) / p.dt_hr) * (p.num_cells_series : ℝ),
    (q - qmax) / p.dt_hr)

/-- One iteration of the segment scan in
`voltage_table_t::calculate_max_discharge_w` (lib_battery_voltage.cpp:228-238):
solve the segment's stationary DOD, clamp it, and keep the (power, current)
pair with greatest power. -/
def maxDischargeStep (p : voltage_params) (t : table_data) (DOD0 A B q qmax : ℝ)
    (acc : ℝ × ℝ) (i : ℕ) : ℝ × ℝ :=
  let dod := max 0 (min 100 (-(A * slope t i + B * intercept t i) / (2 * B * slope t i)))
  let current := qmax * ((1 - DOD0 / 100) - (1 - dod / 100)) / p.dt_hr
  let pw := calculate_voltage t dod * current
  if acc.1 < pw then (pw, current) else acc

/-- The accumulated (max power, its current) pair over all segments of
`voltage_table_t::calculate_max_discharge_w`. -/
def maxDischargeAcc (p : voltage_params) (t : table_data) (q qmax : ℝ) : ℝ × ℝ :=
  (List.range (t.n + 1)).foldl
    (maxDischargeStep p t (calc_DOD q qmax) (q - qmax) (qmax / 100) q qmax) (0, 0)

/-- `voltage_table_t::calculate_max_discharge_w` (lib_battery_voltage.cpp:221-242)
as a (power, current) pair: power is scaled by cells-in-series, current is
floored at 0. -/
def calculate_max_discharge_w (p : voltage_params) (t : table_data) (q qmax : ℝ) : ℝ × ℝ :=
  ((maxDischargeAcc p t q qmax).1 * (p.num_cells_series : ℝ),
    max 0 (maxDischargeAcc p t q qmax).2)

/-- One iteration of the quadratic-formula segment search in the tail of
`voltage_table_t::calculate_current_for_target_w`
(lib_battery_voltage.cpp:275-300), for segment index `i`; the accumulator is
the (DOD_best, P_best) pair.  Segment 0 has slope 0, so `a = 0` skips it
before the `i - 1` row access (truncated subtraction is therefore safe). -/
def cftwQuadStep (t : table_data) (q qmax A B Pw : ℝ) (i : ℕ) (acc : ℝ × ℝ) : ℝ × ℝ :=
  let a := B * slope t i
  let b := A * slope t i + B * intercept t i
  let c := A * intercept t i - Pw
  if a = 0 then acc
  else
    let DOD_new := |(-b + Real.sqrt (b * b - 4 * a * c)) / (2 * a)|
    if t.dod (i - 1) ≤ DOD_new ∧ DOD_new ≤ t.dod (min i (t.n - 1)) then
      let P := (q - (100 - DOD_new) * qmax / 100) * (a * DOD_new + b)
      if |acc.2| < |P| then (DOD_new, P) else acc
    else acc

/-- The `while (incr + row < slopes.size() && incr + row >= 0)` loop of the
tail of `calculate_current_for_target_w`, walking the segment index `pos`
from `row` in direction `mult` (±1).  `fuel = t.n + 2` dominates it. -/
def cftwLoop (t : table_data) (q qmax A B Pw : ℝ) (mult : ℤ) :
    ℕ → ℤ → ℝ × ℝ → ℝ × ℝ
  | 0, _, acc => acc
  | fuel + 1, pos, acc =>
    if 0 ≤ pos ∧ pos < (t.n : ℤ) + 1 then
      cftwLoop t q qmax A B Pw mult fuel (pos + mult)
        (cftwQuadStep t q qmax A B Pw pos.toNat acc)
    else acc

/-- The tail of `voltage_table_t::calculate_current_for_target_w`
(lib_battery_voltage.cpp:257-301), reached when the requested power is below
the achievable maximum. -/
def cftwTail (p : voltage_params) (t : table_data) (P q qmax : ℝ) : ℝ :=
  let DOD := calc_DOD q qmax
  let Pw := P / (p.num_cells_series : ℝ) * p.dt_hr
  let mult : ℤ := if P / (p.num_cells_series : ℝ) * p.dt_hr < 0 then -1 else 1
  let acc := cftwLoop t q qmax (q - qmax) (qmax / 100) Pw mult (t.n + 2)
    (scanIdx t DOD : ℕ) (if mult = -1 then 0 else 100, 0)
  qmax * ((1 - DOD / 100) - (1 - acc.1 / 100)) / p.dt_hr

/-- `voltage_table_t::calculate_current_for_target_w`
(lib_battery_voltage.cpp:244-302): early return at `P = 0`; the sign of `P`
selects charge vs discharge; when `|max power| ≤ |P|` the max's current is
returned, else the quadratic segment search runs. -/
def calculate_current_for_target_w (p : voltage_params) (t : table_data)
    (P q qmax : ℝ) : ℝ :=
  if P = 0 then 0
  else if P < 0 then
    if |(calculate_max_charge_w p t q qmax).1| ≤ |P| then (calculate_max_charge_w p t q qmax).2
    else cftwTail p t P q qmax
  else
    if |(calculate_max_discharge_w p t q qmax).1| ≤ |P| then
      (calculate_max_discharge_w p t q qmax).2
    else cftwTail p t P q qmax

/-! ### Vanadium-redox variant -/

/-- `voltage_vanadium_redox_t::initialize` (lib_battery_voltage.cpp:538-540):
the fixed physical constant `m_RCF`. -/
def m_RCF : ℝ := 8.314 * 1.38 / (26.801 * 3600)

/-- The state-of-charge adjustment at the head of
`voltage_vanadium_redox_t::voltage_model` (lib_battery_voltage.cpp:661-665):
cap above at `1 - tolerance`, replace an exact 0 by `1e-3`. -/
def socUse (q0 qmax : ℝ) : ℝ :=
  if 1 - tolerance < q0 / qmax then 1 - tolerance
  else if q0 / qmax = 0 then 1e-3
  else q0 / qmax

/-- `voltage_vanadium_redox_t::voltage_model` (lib_battery_voltage.cpp:660-670):
logarithmic open-circuit relation plus resistive term on `|I|`. -/
def vr_voltage_model (p : voltage_params) (q0 qmax I_string T : ℝ) : ℝ :=
  p.Vnom_default + m_RCF * T *
    Real.log (socUse q0 qmax ^ 2 / (1 - socUse q0 qmax) ^ 2) + |I_string| * p.resistance

/-- `voltage_vanadium_redox_t::updateVoltage` (lib_battery_voltage.cpp:589-592). -/
def vr_updateVoltage (p : voltage_params) (q qmax I temp : ℝ) : ℝ :=
  vr_voltage_model p (q / (p.num_strings : ℝ)) (qmax / (p.num_strings : ℝ))
    (I / (p.num_strings : ℝ)) (temp + 273.15)

/-- `voltage_vanadium_redox_t::solve_current_for_power`
(lib_battery_voltage.cpp:672-677): residual `I·V(I) - P`. -/
def vr_solve_current_for_power (p : voltage_params) (sq sQ T pw : ℝ) (I : ℝ) : ℝ :=
  I * (p.Vnom_default + m_RCF * T *
      Real.log (((sq - I * p.dt_hr) / sQ) * ((sq - I * p.dt_hr) / sQ) /
        (1 - (sq - I * p.dt_hr) / sQ) ^ 2) + |I| * p.resistance) - pw

/-- `voltage_vanadium_redox_t::solve_max_discharge_power`
(lib_battery_voltage.cpp:679-685): zero-derivative residual of the
power-vs-current relation. -/
def vr_solve_max_discharge_power (p : voltage_params) (sq sQ T : ℝ) (x : ℝ) : ℝ :=
  let I := |x|
  let SOC := (sq - I * p.dt_hr) / sQ
  p.Vnom_default + 2 * I * p.resistance + m_RCF * T *
    (Real.log (SOC * SOC / (1 - SOC) ^ 2) - 2 * I * (1 / SOC - 1 / (1 - SOC)))

/-- `voltage_vanadium_redox_t::calculate_max_discharge_w`
(lib_battery_voltage.cpp:605-632) as a (power, current) pair. -/
def vr_calculate_max_discharge_w (p : voltage_params) (q qmax kelvin : ℝ) : ℝ × ℝ :=
  let sq := q / (p.num_strings : ℝ)
  let sQ := qmax / (p.num_strings : ℝ)
  let x := newton1 (vr_solve_max_discharge_power p sq sQ kelvin)
    newtonFdStep 0.7 1e-6 100 ((sq - tolerance) / p.dt_hr)
  let power := x * vr_voltage_model p (sq - x * p.dt_hr) sQ x kelvin *
    (p.num_strings : ℝ) * (p.num_cells_series : ℝ)
  if power < 0 then (0, 0) else (power, x * (p.num_strings : ℝ))

/-- `voltage_vanadium_redox_t::calculate_current_for_target_w`
(lib_battery_voltage.cpp:634-655): early return at `P = 0`, then the root
finder; `cell_voltage` is the state used for the initial guess. -/
def vr_calculate_current_for_target_w (p : voltage_params)
    (cell_voltage P q qmax kelvin : ℝ) : ℝ :=
  if P = 0 then 0
  else
    let spower := P / ((p.num_cells_series : ℝ) * (p.num_strings : ℝ))
    let x0 := if cell_voltage ≠ 0 then spower / cell_voltage * p.dt_hr
      else spower / p.Vnom_default * p.dt_hr
    newton1 (vr_solve_current_for_power p (q / (p.num_strings : ℝ))
        (qmax / (p.num_strings : ℝ)) kelvin spower)
      newtonFdStep 0.7 1e-6 100 x0 * (p.num_strings : ℝ)

/-! ### Resilience outage driver -/

/-- The stack connection mode of `dispatch_resilience`. -/
inductive Connection where
  | AC_CONNECTED
  | DC_CONNECTED
  deriving DecidableEq

/-- The slice of `m_batteryPower` that the outage steps of
`lib_resilience.cpp` read or write. -/
structure BatteryPower where
  powerSystem : ℝ
  powerPVInverterDraw : ℝ
  powerCritLoad : ℝ
  voltageSystem : ℝ
  powerSystemClipped : ℝ
  inverterTdryC : ℝ
  isOutageStep : Bool
  powerBatteryToLoad : ℝ
  powerSystemToLoad : ℝ
  powerFuelCellToLoad : ℝ
  powerCritLoadUnmet : ℝ

/-- The mutable state of a `dispatch_resilience` instance that the outage
steps touch. -/
structure ResilienceState where
  connection : Connection
  current_outage_index : ℕ
  met_loads_kw : ℝ
  power : BatteryPower

/-- `dispatch_resilience::run_outage_step_ac` (lib_resilience.cpp:62-86).
`m_batteryPower->reset()` and `dispatch_ac_outage_step` are defined outside
the excerpt and are taken as the parameters `reset` and `acStep`. -/
def run_outage_step_ac (reset acStep : BatteryPower → BatteryPower)
    (s : ResilienceState) (crit_load_kwac pv_kwac : ℝ) :
    Except String (ResilienceState × Bool) :=
  if s.connection ≠ Connection.AC_CONNECTED then
    Except.error "Error in resilience::run_outage_step_ac: called for battery with DC connection."
  else
    let bp0 := reset s.power
    let bp1 :=
      if pv_kwac < 0 then { bp0 with powerPVInverterDraw := bp0.powerSystem, powerSystem := 0 }
      else { bp0 with powerPVInverterDraw := 0, powerSystem := pv_kwac }
    let bp2 := acStep { bp1 with powerCritLoad := crit_load_kwac, isOutageStep := true }
    let met := bp2.powerBatteryToLoad + bp2.powerSystemToLoad + bp2.powerFuelCellToLoad
    let s1 : ResilienceState := { s with power := bp2, met_loads_kw := s.met_loads_kw + met }
    if bp2.powerCritLoadUnmet < tolerance then
      Except.ok ({ s1 with current_outage_index := s1.current_outage_index + 1 }, true)
    else Except.ok (s1, false)

/-- `dispatch_resilience::run_outage_step_dc` (lib_resilience.cpp:88-108).
`m_batteryPower->reset()` and `dispatch_dc_outage_step` are defined outside
the excerpt and are taken as the parameters `reset` and `dcStep`. -/
def run_outage_step_dc (reset dcStep : BatteryPower → BatteryPower)
    (s : ResilienceState) (crit_load_kwac pv_kwdc V_pv pv_clipped tdry : ℝ) :
    Except String (ResilienceState × Bool) :=
  if s.connection ≠ Connection.DC_CONNECTED then
    Except.error "Error in resilience::run_outage_step_dc: called for battery with AC connection."
  else
    let bp0 := reset s.power
    let bp1 := { bp0 with powerSystem := pv_kwdc, powerCritLoad := crit_load_kwac }
    let bp2 := dcStep { bp1 with voltageSystem := V_pv, powerSystemClipped := pv_clipped,
                                 inverterTdryC := tdry, isOutageStep := true }
    let met := bp2.powerBatteryToLoad + bp2.powerSystemToLoad + bp2.powerFuelCellToLoad
    let s1 : ResilienceState := { s with power := bp2, met_loads_kw := s.met_loads_kw + met }
    if bp2.powerCritLoadUnmet < tolerance then
      Except.ok ({ s1 with current_outage_index := s1.current_outage_index + 1 }, true)
    else Except.ok (s1, false)

/-! ### Concrete instances used by counterexamples and witnesses -/

/-- A dynamic-model configuration with `Vfull = Vexp` and `Qfull = Qnom`
(flat discharge curve, zero resistance): 1 cell, 1 string, `dt = 1 h`. -/
def cexP : voltage_params := ⟨1, 1, 2, 0, 1, ⟨2, 2, 1.5, 0, 1, 1, 1, 1⟩⟩

/-- The derived constants of `cexP`: `A = 0`, `B0 = 3`, `K = 0`, `E0 = 2`. -/
def cexC : dyn_consts := ⟨0, 3, 0, 2⟩

/-- A valid strictly-decreasing dynamic-model configuration with nonzero
resistance: 1 cell, 1 string, `R = 1 Ω`, `dt = 1 h`. -/
def c5P : voltage_params := ⟨1, 1, 2, 1, 1, ⟨4, 3, 2, 0, 1, 1, 0.5, 1⟩⟩

/-- The derived constants of `c5P`. -/
def c5C : dyn_consts := ⟨1, 3, 1 + Real.exp (-1.5), 5 + Real.exp (-1.5)⟩

/-- The two-row table `[(0, 4.1), (100, 3.4)]` of the spec's scenario. -/
def T0 : table_data :=
  ⟨2, fun i => if i = 0 then 0 else 100, fun i => if i = 0 then 4.1 else 3.4⟩

/-- Table-variant parameters: 1 cell, 1 string, nominal 3.8 V, `dt = 1 h`. -/
def p0 : voltage_params := ⟨1, 1, 3.8, 0.004, 1, ⟨0, 0, 0, 0, 0, 0, 0, 0⟩⟩

/-- An all-zero battery-power block. -/
def bp0 : BatteryPower := ⟨0, 0, 0, 0, 0, 0, false, 0, 0, 0, 0⟩

/-- A DC-connected resilience state. -/
def sDC : ResilienceState := ⟨Connection.DC_CONNECTED, 0, 0, bp0⟩

/-- An AC-connected resilience state. -/
def sAC : ResilienceState := ⟨Connection.AC_CONNECTED, 0, 0, bp0⟩

/-! ### Claim theorems -/

/-- Claim C1: for every dynamic-model parameter set, `parameter_compute`
produces exactly the spec's derived constants
`A = Vfull - Vexp`, `B0 = 3/Qexp`,
`K = ((Vfull - Vnom + A·(e^(-B0·Qnom) - 1))·(Qfull - Qnom))/Qnom`,
`E0 = Vfull + K + R·(Qfull·C_rate) - A`, and raises a fatal configuration
error exactly when one of them is negative. -/
theorem parameter_compute_matches_spec (p : voltage_params) :
    parameter_compute p =
      if specA p < 0 ∨ specB0 p < 0 ∨ specK p < 0 ∨ specE0 p < 0 then
        Except.error VoltageError.negativeModelParams
      else Except.ok ⟨specA p, specB0 p, specK p, specE0 p⟩ := rfl

/-- Claim C3: for every variant (Table, Dynamic, VanadiumRedox) and all
states and charge arguments, `calculate_current_for_target_w` with
`P_watts = 0` returns exactly 0. -/
theorem zero_power_returns_zero_current (p : voltage_params) (t : table_data)
    (c : dyn_consts) (cv q qmax kelvin : ℝ) :
    calculate_current_for_target_w p t 0 q qmax = 0 ∧
    dyn_calculate_current_for_target_w p c cv 0 q qmax = 0 ∧
    vr_calculate_current_for_target_w p cv 0 q qmax kelvin = 0 := by
  refine ⟨?_, ?_, ?_⟩ <;>
    simp [calculate_current_for_target_w, dyn_calculate_current_for_target_w,
      vr_calculate_current_for_target_w]

/-- Claim C10: the Table variant's `updateVoltage` ignores the current and
temperature arguments: two calls differing only in them produce the same
cell voltage. -/
theorem table_voltage_ignores_current_and_temp (t : table_data)
    (q qmax I I' temp temp' dt : ℝ) :
    table_updateVoltage t q qmax I temp dt = table_updateVoltage t q qmax I' temp' dt := rfl

/-- Claim C9: calling `run_outage_step_ac` on a DC-connected battery, or
`run_outage_step_dc` on an AC-connected battery, returns the fatal
descriptive error for every possible reset and dispatch-step computation,
i.e. without performing any state update. -/
theorem outage_step_wrong_connection_errors (s : ResilienceState) :
    (s.connection = Connection.DC_CONNECTED →
      ∀ reset acStep crit pv, run_outage_step_ac reset acStep s crit pv =
        Except.error
          "Error in resilience::run_outage_step_ac: called for battery with DC connection.") ∧
    (s.connection = Connection.AC_CONNECTED →
      ∀ reset dcStep crit pv V pvclip tdry,
        run_outage_step_dc reset dcStep s crit pv V pvclip tdry =
          Except.error
            "Error in resilience::run_outage_step_dc: called for battery with AC connection.") := by
  constructor
  · intro h reset acStep crit pv
    simp [run_outage_step_ac, h]
  · intro h reset dcStep crit pv V pvclip tdry
    simp [run_outage_step_dc, h]

/-- Witness for C9 at concrete states: a DC-connected state fed to the AC
step and an AC-connected state fed to the DC step both error. -/
theorem outage_step_wrong_connection_errors_witness :
    run_outage_step_ac id id sDC 0 0 =
      Except.error
        "Error in resilience::run_outage_step_ac: called for battery with DC connection." ∧
    run_outage_step_dc id id sAC 0 0 0 0 0 =
      Except.error
        "Error in resilience::run_outage_step_dc: called for battery with AC connection." :=
  ⟨(outage_step_wrong_connection_errors sDC).1 rfl id id 0 0,
    (outage_step_wrong_connection_errors sAC).2 rfl id id 0 0 0 0 0⟩

/-- Counterexample to claim C8: with `q0 = 1 > 0` and `qmax = 1000000 > 0`
the ratio used inside `voltage_model` is `1e-6`, strictly below the claimed
clamp interval `[1e-3, 1 - tolerance]`: the code replaces only an exact 0
by `1e-3` and caps above at `1 - tolerance`. -/
theorem soc_not_interval_clamped_counterexample :
    (0:ℝ) < 1 ∧ (0:ℝ) < 1000000 ∧ socUse 1 1000000 = 1 / 1000000 ∧
      ¬((1e-3 : ℝ) ≤ socUse 1 1000000) := by
  norm_num [socUse, tolerance]

/-- Claim C8 as amended: the effective state of charge used inside the
vanadium-redox `voltage_model` is capped above at `1 - tolerance` and an
exact 0 is replaced by `1e-3` (values in `(0, 1e-3)` pass unchanged), so
for every `q0, qmax > 0` it lies in `(0, 1 - tolerance]`, the logarithm's
argument is strictly positive (no singularity), and `voltage_model` returns
the finite value of its formula. -/
theorem vanadium_soc_in_safe_range (p : voltage_params) (q0 qmax I kelvin : ℝ)
    (h0 : 0 < q0) (h1 : 0 < qmax) :
    0 < socUse q0 qmax ∧ socUse q0 qmax ≤ 1 - tolerance ∧
    0 < socUse q0 qmax ^ 2 / (1 - socUse q0 qmax) ^ 2 ∧
    vr_voltage_model p q0 qmax I kelvin =
      p.Vnom_default + m_RCF * kelvin *
        Real.log (socUse q0 qmax ^ 2 / (1 - socUse q0 qmax) ^ 2) + |I| * p.resistance := by
  have hS : 0 < q0 / qmax := div_pos h0 h1
  have htol : (0:ℝ) < 1 - tolerance := by norm_num [tolerance]
  have key : 0 < socUse q0 qmax ∧ socUse q0 qmax ≤ 1 - tolerance := by
    unfold socUse
    split_ifs with hgt hz
    · exact ⟨htol, le_refl _⟩
    · exact absurd hz (ne_of_gt hS)
    · exact ⟨hS, not_lt.mp hgt⟩
  have hlt1 : socUse q0 qmax < 1 := lt_of_le_of_lt key.2 (by norm_num [tolerance])
  exact ⟨key.1, key.2, div_pos (pow_pos key.1 2) (pow_pos (by linarith) 2), rfl⟩

/-- Witness for C8 at the boundary input `q0 = qmax = 1` (state of charge
exactly 1, one of the claim's singular points). -/
theorem vanadium_soc_in_safe_range_witness :
    0 < socUse 1 1 ∧ socUse 1 1 ≤ 1 - tolerance ∧
    0 < socUse 1 1 ^ 2 / (1 - socUse 1 1) ^ 2 ∧
    vr_voltage_model p0 1 1 0 298 =
      p0.Vnom_default + m_RCF * 298 *
        Real.log (socUse 1 1 ^ 2 / (1 - socUse 1 1) ^ 2) + |(0:ℝ)| * p0.resistance :=
  vanadium_soc_in_safe_range p0 1 1 0 298 (by norm_num) (by norm_num)

/-! ### Scan-loop characterization and table monotonicity -/

lemma scanAux_le_add (t : table_data) (x : ℝ) : ∀ fuel i, scanAux t x fuel i ≤ i + fuel := by
  intro fuel
  induction fuel with
  | zero => intro i; simp [scanAux]
  | succ m ih =>
    intro i
    simp only [scanAux]
    split
    · exact le_trans (ih (i + 1)) (by omega)
    · omega

lemma scanAux_before (t : table_data) (x : ℝ) :
    ∀ fuel i k, i ≤ k → k < scanAux t x fuel i → k < t.n ∧ t.dod k < x := by
  intro fuel
  induction fuel with
  | zero => intro i k hik hk; simp only [scanAux] at hk; omega
  | succ m ih =>
    intro i k hik hk
    simp only [scanAux] at hk
    by_cases hc : i < t.n ∧ t.dod i < x
    · rw [if_pos hc] at hk
      rcases eq_or_lt_of_le hik with rfl | hlt
      · exact hc
      · exact ih (i + 1) k hlt hk
    · rw [if_neg hc] at hk
      omega

lemma scanAux_stop (t : table_data) (x : ℝ) :
    ∀ fuel i, scanAux t x fuel i < i + fuel →
      ¬(scanAux t x fuel i < t.n ∧ t.dod (scanAux t x fuel i) < x) := by
  intro fuel
  induction fuel with
  | zero => intro i h; simp only [scanAux] at h; omega
  | succ m ih =>
    intro i h
    simp only [scanAux] at h ⊢
    by_cases hc : i < t.n ∧ t.dod i < x
    · rw [if_pos hc] at h ⊢
      exact ih (i + 1) (by omega)
    · rw [if_neg hc] at h ⊢
      exact hc

lemma scanIdx_le (t : table_data) (x : ℝ) : scanIdx t x ≤ t.n := by
  simpa [scanIdx] using scanAux_le_add t x t.n 0

lemma scanIdx_before (t : table_data) (x : ℝ) (k : ℕ) (hk : k < scanIdx t x) :
    k < t.n ∧ t.dod k < x :=
  scanAux_before t x t.n 0 k (Nat.zero_le k) hk

lemma scanIdx_stop (t : table_data) (x : ℝ) (h : scanIdx t x < t.n) :
    x ≤ t.dod (scanIdx t x) := by
  unfold scanIdx at h ⊢
  have h2 := scanAux_stop t x t.n 0 (by omega)
  exact not_lt.mp fun hlt => h2 ⟨h, hlt⟩

lemma effRow_lt (t : table_data) (hn : 2 ≤ t.n) (i : ℕ) : effRow t i < t.n := by
  unfold effRow
  omega

lemma slope_nonpos (t : table_data) (hn : 2 ≤ t.n)
    (hd : ∀ i j, i < j → j < t.n → t.dod i < t.dod j)
    (hv : ∀ i j, i < j → j < t.n → t.vol j < t.vol i) (i : ℕ) :
    slope t i ≤ 0 := by
  unfold slope
  split_ifs with h
  · exact le_refl 0
  · have hlt : effRow t i < t.n := effRow_lt t hn i
    have h1 : effRow t i - 1 < effRow t i := by omega
    have hnum : t.vol (effRow t i) < t.vol (effRow t i - 1) := hv _ _ h1 hlt
    have hden : t.dod (effRow t i - 1) < t.dod (effRow t i) := hd _ _ h1 hlt
    exact le_of_lt (div_neg_of_neg_of_pos (by linarith) (by linarith))

lemma lineVal_antitone (t : table_data) (hn : 2 ≤ t.n)
    (hd : ∀ i j, i < j → j < t.n → t.dod i < t.dod j)
    (hv : ∀ i j, i < j → j < t.n → t.vol j < t.vol i) (i : ℕ)
    {x y : ℝ} (hxy : x ≤ y) : lineVal t i y ≤ lineVal t i x := by
  have hs := slope_nonpos t hn hd hv i
  have := mul_le_mul_of_nonpos_left hxy hs
  unfold lineVal
  linarith

lemma lineVal_row0 (t : table_data) (x : ℝ) : lineVal t 0 x = t.vol 0 := by
  unfold lineVal slope intercept effRow
  simp

lemma lineVal_node_right (t : table_data) (hn : 2 ≤ t.n)
    (hd : ∀ i j, i < j → j < t.n → t.dod i < t.dod j)
    (i : ℕ) (h1 : 1 ≤ i) (h2 : i ≤ t.n - 1) :
    lineVal t i (t.dod i) = t.vol i := by
  have he : effRow t i = i := by unfold effRow; omega
  have hin : i < t.n := by omega
  have hdd : t.dod (i - 1) < t.dod i := hd (i - 1) i (by omega) hin
  have hne : t.dod i - t.dod (i - 1) ≠ 0 := sub_ne_zero_of_ne hdd.ne'
  have hs : slope t i = (t.vol i - t.vol (i - 1)) / (t.dod i - t.dod (i - 1)) := by
    unfold slope
    rw [he, if_neg (by omega : ¬ i = 0)]
  have hic : intercept t i = t.vol (i - 1) - slope t i * t.dod (i - 1) := by
    unfold intercept
    rw [he, if_neg (by omega : ¬ i = 0)]
  unfold lineVal
  rw [hic, hs]
  field_simp
  ring

lemma lineVal_node_left (t : table_data) (hn : 2 ≤ t.n)
    (i : ℕ) (h1 : 1 ≤ i) (h2 : i ≤ t.n - 1) :
    lineVal t i (t.dod (i - 1)) = t.vol (i - 1) := by
  have he : effRow t i = i := by unfold effRow; omega
  have hic : intercept t i = t.vol (i - 1) - slope t i * t.dod (i - 1) := by
    unfold intercept
    rw [he, if_neg (by omega : ¬ i = 0)]
  unfold lineVal
  rw [hic]
  ring

lemma lineVal_extrap (t : table_data) (hn : 2 ≤ t.n) (x : ℝ) :
    lineVal t t.n x = lineVal t (t.n - 1) x := by
  have h1 : effRow t t.n = t.n - 1 := by unfold effRow; omega
  have h2 : effRow t (t.n - 1) = t.n - 1 := by unfold effRow; omega
  have hs : slope t t.n = slope t (t.n - 1) := by
    unfold slope
    rw [h1, h2]
  have hic : intercept t t.n = intercept t (t.n - 1) := by
    unfold intercept
    rw [h1, h2, hs]
  unfold lineVal
  rw [hs, hic]

/-- Claim C6: for a Table variant whose (post-sort) table has strictly
increasing depth-of-discharge and strictly decreasing voltage,
`calculate_voltage` is monotonically non-increasing on DOD values in
`[0, 100]`. -/
theorem table_voltage_antitone (t : table_data) (hn : 2 ≤ t.n)
    (hd : ∀ i j, i < j → j < t.n → t.dod i < t.dod j)
    (hv : ∀ i j, i < j → j < t.n → t.vol j < t.vol i)
    (x y : ℝ) (hx0 : 0 ≤ x) (hy1 : y ≤ 100) (hxy : x ≤ y) :
    calculate_voltage t y ≤ calculate_voltage t x := by
  have hx1 : x ≤ 100 := le_trans hxy hy1
  have hy0 : 0 ≤ y := le_trans hx0 hxy
  simp only [calculate_voltage]
  have hcx : min (max 0 x) 100 = x := by rw [max_eq_right hx0, min_eq_left hx1]
  have hcy : min (max 0 y) 100 = y := by rw [max_eq_right hy0, min_eq_left hy1]
  rw [hcx, hcy]
  have hIle := scanIdx_le t x
  have hJle := scanIdx_le t y
  have hIstop := scanIdx_stop t x
  have hJstop := scanIdx_stop t y
  have hIbef := scanIdx_before t x
  have hJbef := scanIdx_before t y
  set i := scanIdx t x
  set j := scanIdx t y
  apply max_le_max _ (le_refl (0 : ℝ))
  have hij : i ≤ j := by
    by_contra hcon
    push_neg at hcon
    have h1 := hIbef j hcon
    have h2 : y ≤ t.dod j := hJstop h1.1
    linarith [h1.2]
  rcases eq_or_lt_of_le hij with heq | hlt
  · rw [← heq]
    exact lineVal_antitone t hn hd hv i hxy
  · have hin : i < t.n := lt_of_lt_of_le hlt hJle
    have hxi : x ≤ t.dod i := hIstop hin
    have hup : t.vol i ≤ lineVal t i x := by
      rcases Nat.eq_zero_or_pos i with hz | hpos
      · rw [hz, lineVal_row0]
      · calc t.vol i = lineVal t i (t.dod i) :=
              (lineVal_node_right t hn hd i hpos (by omega)).symm
          _ ≤ lineVal t i x := lineVal_antitone t hn hd hv i hxi
    have hj1 : 1 ≤ j := by omega
    have hdj : t.dod (j - 1) < y := (hJbef (j - 1) (by omega)).2
    have hlow : lineVal t j y ≤ t.vol (j - 1) := by
      rcases lt_or_eq_of_le hJle with hjlt | hjeq
      · calc lineVal t j y ≤ lineVal t j (t.dod (j - 1)) :=
              lineVal_antitone t hn hd hv j (le_of_lt hdj)
          _ = t.vol (j - 1) := lineVal_node_left t hn j hj1 (by omega)
      · rw [hjeq] at hdj ⊢
        rw [lineVal_extrap t hn]
        have hstep : lineVal t (t.n - 1) y ≤ lineVal t (t.n - 1) (t.dod (t.n - 1)) :=
          lineVal_antitone t hn hd hv (t.n - 1) (le_of_lt hdj)
        rwa [lineVal_node_right t hn hd (t.n - 1) (by omega) (le_refl _)] at hstep
    have hchain : t.vol (j - 1) ≤ t.vol i := by
      rcases eq_or_lt_of_le (by omega : i ≤ j - 1) with heq2 | hlt2
      · rw [← heq2]
      · exact le_of_lt (hv i (j - 1) hlt2 (by omega))
    linarith

/-- Witness for C6 at the spec's two-row table `[(0,4.1),(100,3.4)]` and
the DOD pair `30 ≤ 60`. -/
theorem table_voltage_antitone_witness :
    calculate_voltage T0 60 ≤ calculate_voltage T0 30 := by
  apply table_voltage_antitone T0 (by norm_num [T0]) ?_ ?_ 30 60
    (by norm_num) (by norm_num) (by norm_num)
  · intro i j hij hj
    simp only [T0] at hj ⊢
    interval_cases j
    · omega
    · interval_cases i
      · norm_num
  · intro i j hij hj
    simp only [T0] at hj ⊢
    interval_cases j
    · omega
    · interval_cases i
      · norm_num

/-! ### Table round-trip and power clamping -/

lemma maxDischargeStep_inv (p : voltage_params) (t : table_data) (D0 A B q qmax : ℝ) :
    ∀ (l : List ℕ) (acc : ℝ × ℝ), 0 ≤ acc.1 → (acc.1 = 0 → acc.2 = 0) →
      0 ≤ (l.foldl (maxDischargeStep p t D0 A B q qmax) acc).1 ∧
      ((l.foldl (maxDischargeStep p t D0 A B q qmax) acc).1 = 0 →
        (l.foldl (maxDischargeStep p t D0 A B q qmax) acc).2 = 0) := by
  intro l
  induction l with
  | nil => intro acc h1 h2; simpa using ⟨h1, h2⟩
  | cons a as ih =>
    intro acc h1 h2
    simp only [List.foldl_cons]
    apply ih
    · simp only [maxDischargeStep]
      split_ifs with h
      · exact le_of_lt (lt_of_le_of_lt h1 h)
      · exact h1
    · simp only [maxDischargeStep]
      split_ifs with h
      · intro hz
        exact absurd hz (ne_of_gt (lt_of_le_of_lt h1 h))
      · exact h2

/-- Claim C7: feeding the Table variant's maximum discharge power back into
`calculate_current_for_target_w` returns exactly the corresponding maximum
current (the clamp branch fires on the equal powers). -/
theorem table_roundtrip_max_discharge (p : voltage_params) (t : table_data) (q qmax : ℝ)
    (hncs : 0 < p.num_cells_series) :
    calculate_current_for_target_w p t (calculate_max_discharge_w p t q qmax).1 q qmax =
      (calculate_max_discharge_w p t q qmax).2 := by
  have hinv := maxDischargeStep_inv p t (calc_DOD q qmax) (q - qmax) (qmax / 100) q qmax
    (List.range (t.n + 1)) (0, 0) le_rfl (fun _ => rfl)
  rw [show (List.range (t.n + 1)).foldl
      (maxDischargeStep p t (calc_DOD q qmax) (q - qmax) (qmax / 100) q qmax) (0, 0) =
      maxDischargeAcc p t q qmax from rfl] at hinv
  have hMfst : (calculate_max_discharge_w p t q qmax).1 =
      (maxDischargeAcc p t q qmax).1 * (p.num_cells_series : ℝ) := rfl
  have hMsnd : (calculate_max_discharge_w p t q qmax).2 =
      max 0 (maxDischargeAcc p t q qmax).2 := rfl
  have hcast : (0:ℝ) < (p.num_cells_series : ℝ) := by exact_mod_cast hncs
  by_cases hz : (maxDischargeAcc p t q qmax).1 * (p.num_cells_series : ℝ) = 0
  · have h1 : (maxDischargeAcc p t q qmax).1 = 0 := by
      rcases mul_eq_zero.mp hz with h | h
      · exact h
      · exact absurd h (ne_of_gt hcast)
    have hPz : (calculate_max_discharge_w p t q qmax).1 = 0 := by rw [hMfst, h1, zero_mul]
    unfold calculate_current_for_target_w
    rw [if_pos hPz, hMsnd, hinv.2 h1]
    simp
  · have hPpos : 0 < (calculate_max_discharge_w p t q qmax).1 := by
      rw [hMfst]
      exact lt_of_le_of_ne (mul_nonneg hinv.1 (le_of_lt hcast)) (Ne.symm hz)
    unfold calculate_current_for_target_w
    rw [if_neg (ne_of_gt hPpos), if_neg (not_lt.mpr (le_of_lt hPpos)),
      if_pos (le_refl |(calculate_max_discharge_w p t q qmax).1|)]

/-- Witness for C7 at the spec's two-row table with `q = 0.5`, `qmax = 1`. -/
theorem table_roundtrip_max_discharge_witness :
    calculate_current_for_target_w p0 T0 (calculate_max_discharge_w p0 T0 0.5 1).1 0.5 1 =
      (calculate_max_discharge_w p0 T0 0.5 1).2 :=
  table_roundtrip_max_discharge p0 T0 0.5 1 (by norm_num [p0])

/-- Claim C2 as amended: only the Table variant clamps.  When the requested
power's magnitude reaches the maximum achievable power of the direction
selected by its sign, the Table variant returns that maximum's current;
the Dynamic and VanadiumRedox variants instead hand the request to the
root finder unclamped (see the counterexample). -/
theorem table_clamp_at_max_power (p : voltage_params) (t : table_data) (P q qmax : ℝ)
    (hP : P ≠ 0) :
    (P < 0 → |(calculate_max_charge_w p t q qmax).1| ≤ |P| →
      calculate_current_for_target_w p t P q qmax = (calculate_max_charge_w p t q qmax).2) ∧
    (0 < P → |(calculate_max_discharge_w p t q qmax).1| ≤ |P| →
      calculate_current_for_target_w p t P q qmax =
        (calculate_max_discharge_w p t q qmax).2) := by
  constructor
  · intro hneg hle
    unfold calculate_current_for_target_w
    rw [if_neg hP, if_pos hneg, if_pos hle]
  · intro hpos hle
    unfold calculate_current_for_target_w
    rw [if_neg hP, if_neg (not_lt.mpr (le_of_lt hpos)), if_pos hle]

lemma T0_voltage_at_zero : calculate_voltage T0 0 = 4.1 := by
  have hscan : scanIdx T0 0 = 0 := by
    unfold scanIdx
    rw [show T0.n = 2 from rfl, show (2:ℕ) = 1 + 1 from rfl]
    simp only [scanAux]
    norm_num [T0]
  unfold calculate_voltage
  norm_num
  rw [hscan]
  unfold lineVal slope intercept effRow
  norm_num [T0]

lemma max_charge_w_p0 : calculate_max_charge_w p0 T0 0.5 1 = (-2.05, -0.5) := by
  unfold calculate_max_charge_w
  rw [T0_voltage_at_zero]
  norm_num [p0]

/-- Witness for the amended C2 at the spec's table: a charge request of
`-3 W` whose magnitude exceeds the achievable `-2.05 W` returns the max
charge current. -/
theorem table_clamp_at_max_power_witness :
    calculate_current_for_target_w p0 T0 (-3) 0.5 1 =
      (calculate_max_charge_w p0 T0 0.5 1).2 := by
  apply (table_clamp_at_max_power p0 T0 (-3) 0.5 1 (by norm_num)).1 (by norm_num)
  rw [max_charge_w_p0]
  norm_num [abs_le]

/-! ### Dynamic-variant concrete computations -/

lemma cexP_dt : cexP.dt_hr = 1 := rfl

lemma cexP_Vcut : cexP.dynamic.Vcut = 0 := rfl

lemma cexP_ncs : cexP.num_cells_series = 1 := rfl

lemma cexP_ns : cexP.num_strings = 1 := rfl

lemma newton1_succ (f : ℝ → ℝ) (h damp ftol : ℝ) (n : ℕ) (x : ℝ) :
    newton1 f h damp ftol (n + 1) x =
      if |f x| < ftol then x
      else newton1 f h damp ftol n (x - damp * (f x / ((f (x + h) - f x) / h))) := rfl

lemma dyn_loop_succ (p : voltage_params) (c : dyn_consts) (q qmax : ℝ) (fuel : ℕ)
    (current vol : ℝ) (acc : ℝ × ℝ × ℝ) :
    dyn_max_discharge_loop p c q qmax (fuel + 1) current vol acc =
      if current * p.dt_hr < q - tolerance ∧ p.dynamic.Vcut ≤ vol then
        dyn_max_discharge_loop p c q qmax fuel (current + q / 10)
          (voltage_model_tremblay_hybrid p c qmax current (q - current * p.dt_hr))
          (if acc.1 <
                current * voltage_model_tremblay_hybrid p c qmax current (q - current * p.dt_hr) ∧
              p.dynamic.Vcut ≤ voltage_model_tremblay_hybrid p c qmax current (q - current * p.dt_hr)
            then (current * voltage_model_tremblay_hybrid p c qmax current (q - current * p.dt_hr),
              current, voltage_model_tremblay_hybrid p c qmax current (q - current * p.dt_hr))
            else acc)
      else acc := rfl

lemma cex_tremblay (Q I q0 : ℝ) : voltage_model_tremblay_hybrid cexP cexC Q I q0 = 2 := by
  unfold voltage_model_tremblay_hybrid calculate_Qfull_mod
  norm_num [cexP, cexC]

lemma cex_param_ok : parameter_compute cexP = Except.ok cexC := by
  unfold parameter_compute
  norm_num [cexP, cexC]

lemma cex_init : dyn_init cexP = Except.ok (cexC, 2) := by
  unfold dyn_init
  rw [if_neg (by norm_num [cexP]), cex_param_ok]
  rfl

lemma cex_loop :
    dyn_max_discharge_loop cexP cexC 1 1 12 (1 / 2) 0 0 = (9 / 5, 9 / 10, 2) := by
  rw [show (12:ℕ) = 11 + 1 from rfl, dyn_loop_succ]
  simp only [cex_tremblay]
  norm_num [cexP_dt, cexP_Vcut, tolerance]
  rw [show (11:ℕ) = 10 + 1 from rfl, dyn_loop_succ]
  simp only [cex_tremblay]
  norm_num [cexP_dt, cexP_Vcut, tolerance]
  rw [show (10:ℕ) = 9 + 1 from rfl, dyn_loop_succ]
  simp only [cex_tremblay]
  norm_num [cexP_dt, cexP_Vcut, tolerance]
  rw [show (9:ℕ) = 8 + 1 from rfl, dyn_loop_succ]
  simp only [cex_tremblay]
  norm_num [cexP_dt, cexP_Vcut, tolerance]
  rw [show (8:ℕ) = 7 + 1 from rfl, dyn_loop_succ]
  simp only [cex_tremblay]
  norm_num [cexP_dt, cexP_Vcut, tolerance]
  rw [show (7:ℕ) = 6 + 1 from rfl, dyn_loop_succ]
  simp only [cex_tremblay]
  norm_num [cexP_dt, cexP_Vcut, tolerance]

lemma cex_max_discharge : dyn_calculate_max_discharge_w cexP cexC 1 1 = (1.8, 0.9) := by
  unfold dyn_calculate_max_discharge_w
  norm_num [cexP_dt, cexP_Vcut, cexP_ncs, cexP_ns, Nat.ceil_ofNat]
  rw [cex_loop]
  exact ⟨rfl, rfl⟩

lemma cex_resid : solve_current_for_discharge_power cexP cexC 1 1 1 4 2 = 0 := by
  unfold solve_current_for_discharge_power
  norm_num [cexP, cexC]

lemma cex_cftw : dyn_calculate_current_for_target_w cexP cexC 2 4 1 1 = 2 := by
  unfold dyn_calculate_current_for_target_w
  simp only [cexP_ncs, cexP_ns, cexP_dt, cexP_Vcut]
  rw [if_neg (by norm_num : ¬(4:ℝ) = 0), if_pos (by norm_num : (0:ℝ) < 4)]
  rw [if_neg (by simp : ¬((0:ℝ) ≠ 0))]
  rw [if_pos (by norm_num : (2:ℝ) ≠ 0)]
  norm_num [abs_of_nonneg]
  rw [show (100:ℕ) = 99 + 1 from rfl, newton1_succ, cex_resid]
  norm_num

/-- Counterexample to claim C2: for the Dynamic variant with a flat
discharge curve (`Vfull = Vexp`, `Qfull = Qnom`, `R = 0`, so the cell
voltage is identically 2 V), a discharge request of 4 W exceeds the
maximum achievable discharge power 1.8 W, yet
`calculate_current_for_target_w` returns the root-finder's solution 2 A
instead of the maximum-power current 0.9 A: the Dynamic variant performs
no clamping. -/
theorem dynamic_clamp_counterexample :
    dyn_init cexP = Except.ok (cexC, 2) ∧
    dyn_calculate_max_discharge_w cexP cexC 1 1 = (1.8, 0.9) ∧
    (1.8 : ℝ) ≤ |(4 : ℝ)| ∧
    dyn_calculate_current_for_target_w cexP cexC 2 4 1 1 = 2 ∧
    (2 : ℝ) ≠ 0.9 :=
  ⟨cex_init, cex_max_discharge, by norm_num [abs_of_nonneg], cex_cftw, by norm_num⟩

/-- Counterexample to claim C4: constructing the Dynamic variant with
`Vfull = Vexp` (a violation of the strict ordering `Vfull > Vexp`)
succeeds, because the code only rejects strict inversions `Vfull < Vexp`. -/
theorem ordering_equal_passes_counterexample :
    cexP.dynamic.Vfull ≤ cexP.dynamic.Vexp ∧ dyn_init cexP = Except.ok (cexC, 2) :=
  ⟨by norm_num [cexP], cex_init⟩

/-- Claim C4 as amended: `initialize` raises the ordering configuration
error exactly when `Vfull < Vexp` or `Vexp < Vnom` or `Vnom < Vcut`
(equal adjacent voltages pass the check), and whenever the ordering check
passes — in particular for every strictly decreasing quadruple —
construction proceeds to `parameter_compute`, succeeding iff the derived
constants are non-negative. -/
theorem dynamic_ordering_validation (p : voltage_params) :
    (dyn_init p = Except.error VoltageError.orderingViolation ↔
      (p.dynamic.Vfull < p.dynamic.Vexp ∨ p.dynamic.Vexp < p.dynamic.Vnom ∨
        p.dynamic.Vnom < p.dynamic.Vcut)) ∧
    (¬(p.dynamic.Vfull < p.dynamic.Vexp ∨ p.dynamic.Vexp < p.dynamic.Vnom ∨
        p.dynamic.Vnom < p.dynamic.Vcut) →
      dyn_init p = (parameter_compute p).map fun c => (c, p.dynamic.Vfull)) := by
  constructor
  · unfold dyn_init
    split_ifs with h
    · simp [h]
    · simp only [h, iff_false]
      cases hpc : parameter_compute p with
      | error e =>
        have he : e = VoltageError.negativeModelParams := by
          simp only [parameter_compute] at hpc
          split_ifs at hpc
          injection hpc with h2
          exact h2.symm
        subst he
        simp [Except.map]
      | ok c => simp [Except.map]
  · intro h
    unfold dyn_init
    rw [if_neg h]

/-- Witness for C4 at the strictly decreasing quadruple `4 > 3 > 2 > 0`:
the ordering check passes and initialization reduces to
`parameter_compute`. -/
theorem dynamic_ordering_validation_witness :
    dyn_init c5P = (parameter_compute c5P).map fun c => (c, c5P.dynamic.Vfull) :=
  (dynamic_ordering_validation c5P).2 (by norm_num [c5P])

/-! ### Full-charge voltage of the dynamic model -/

lemma c5_param_ok : parameter_compute c5P = Except.ok c5C := by
  have hexp := Real.exp_pos (-1.5)
  have h15 : Real.exp (-(3 / c5P.dynamic.Qexp) * c5P.dynamic.Qnom) = Real.exp (-1.5) := by
    norm_num [c5P]
  simp only [parameter_compute, h15]
  split_ifs with h
  · exfalso
    rcases h with h | h | h | h
    · norm_num [c5P] at h
    · norm_num [c5P] at h
    · norm_num [c5P] at h
      nlinarith
    · norm_num [c5P] at h
      nlinarith
  · simp only [c5C, Except.ok.injEq, dyn_consts.mk.injEq]
    norm_num [c5P]
    constructor
    · ring
    · ring

/-- Counterexample to claim C5: for the valid strictly-decreasing
parameter set `c5P` (`Vfull = 4`, `R = 1`, `Qfull = 1`, `C_rate = 1`),
`updateVoltage` at `q = qmax` with zero current yields 5 V, which is
`Vfull + R·Qfull·C_rate`, not `Vfull = 4`. -/
theorem full_charge_voltage_counterexample :
    dyn_init c5P = Except.ok (c5C, 4) ∧
    dyn_updateVoltage c5P c5C 1 1 0 = 5 ∧ (5 : ℝ) ≠ 4 := by
  refine ⟨?_, ?_, by norm_num⟩
  · unfold dyn_init
    rw [if_neg (by norm_num [c5P]), c5_param_ok]
    rfl
  · unfold dyn_updateVoltage voltage_model_tremblay_hybrid calculate_Qfull_mod
    norm_num [c5P, c5C, Real.exp_zero]

/-- Claim C5 as amended: for any dynamic parameter set whose derived
constants compute successfully and whose cutoff-adjusted capacity is
nonzero, `updateVoltage` at `q = qmax` with zero current yields a cell
voltage of `max (Vfull + R·(Qfull·C_rate)) 0` — equal to `Vfull` only when
`R·Qfull·C_rate = 0`. -/
theorem full_charge_zero_current_voltage (p : voltage_params) (c : dyn_consts) (qmax : ℝ)
    (hc : parameter_compute p = Except.ok c)
    (hQ : calculate_Qfull_mod p c (qmax / (p.num_strings : ℝ)) ≠ 0) :
    dyn_updateVoltage p c qmax qmax 0 =
      max (p.dynamic.Vfull + p.resistance * (p.dynamic.Qfull * p.dynamic.C_rate)) 0 := by
  simp only [parameter_compute] at hc
  split_ifs at hc
  rw [Except.ok.injEq] at hc
  subst hc
  unfold dyn_updateVoltage voltage_model_tremblay_hybrid
  dsimp only
  rw [sub_self, sub_zero, div_self hQ, mul_zero, Real.exp_zero]
  rw [zero_div, mul_zero, sub_zero, mul_one, mul_one]
  congr 1
  ring

/-- Witness for the amended C5 at the concrete valid parameter set `c5P`. -/
theorem full_charge_zero_current_voltage_witness :
    dyn_updateVoltage c5P c5C 1 1 0 =
      max (c5P.dynamic.Vfull + c5P.resistance * (c5P.dynamic.Qfull * c5P.dynamic.C_rate)) 0 := by
  apply full_charge_zero_current_voltage c5P c5C 1 c5_param_ok
  norm_num [calculate_Qfull_mod, c5P]

end

end SSCBattery
